import Mathlib

/-!
Verification of the uwtools driver layer (`uwtools/drivers/forecast.py`,
`uwtools/drivers/orog.py`, `uwtools/api/chgres_cube.py`) against its
natural-language specification.

The filesystem is modelled as an association list from paths (component
lists) to node kinds; the first binding for a path wins, mirroring the
fact that at most one node exists at a path.  Collaborators whose source
is not part of this repository (the scheduler client, `run_cmd`,
`handle_existing`, `stage_files`) are either passed in as parameters or
modelled from the spec, as marked in their doc comments.
-/

namespace Uwtools

/-- A filesystem path, as its list of components. -/
abbrev Path := List String

/-- The kind of node present at a path: a regular file, a directory, or a
symbolic link recording its target. -/
inductive NodeKind where
  | file
  | dir
  | link (target : String)
deriving DecidableEq, Repr

/-- A filesystem: an association list from paths to node kinds.  The first
binding for a given path is the authoritative one. -/
abbrev FS := List (Path × NodeKind)

/-- Look up the node at a path (first binding wins). -/
def lookupFS : FS → Path → Option NodeKind
  | [], _ => none
  | (q, k) :: rest, p => if q = p then some k else lookupFS rest p

/-- `os.path.exists`: some node is present at the path. -/
def existsFS (fs : FS) (p : Path) : Bool :=
  (lookupFS fs p).isSome

/-- `os.path.isdir`: the node at the path is a directory. -/
def isdir (fs : FS) (p : Path) : Bool :=
  decide (lookupFS fs p = some NodeKind.dir)

/-- Boolean path-prefix test: `pfx p q` holds when `q` lies at or below
`p` in the directory tree. -/
def pfx : Path → Path → Bool
  | [], _ => true
  | _ :: _, [] => false
  | a :: as, b :: bs => if a = b then pfx as bs else false

/-- `shutil.rmtree`: remove the node at `p` and everything below it. -/
def deltree (fs : FS) (p : Path) : FS :=
  fs.filter (fun e => !(pfx p e.1))

/-- Move the subtree rooted at `dir` aside to the sibling whose final
component carries the given suffix, leaving all contents intact. -/
def renameAside (fs : FS) (dir : Path) (suffix : String) : FS :=
  let target : Path := dir.dropLast ++ [(dir.getLast?.getD ("")) ++ suffix]
  fs.map (fun e => if pfx dir e.1 then (target ++ e.1.drop dir.length, e.2) else e)

/-- Modelled from the spec: `uwtools.utils.file.handle_existing` is imported
by `forecast.py` but its source is not part of this repository.  Per spec
section 4.3: `delete` removes an existing directory entirely (recursively);
`rename` moves an existing directory aside to a non-colliding sibling name
with a deterministic suffix (a timestamp in the real system, here a
parameter); any other action leaves the filesystem untouched. -/
def handle_existing (fs : FS) (dir : Path) (act : String) (suffix : String) : FS :=
  if act = "delete" then
    if existsFS fs dir then deltree fs dir else fs
  else if act = "rename" then
    if existsFS fs dir then renameAside fs dir suffix else fs
  else fs

/-- Result of `os.makedirs`: the updated filesystem, or the raised
`OSError` together with the filesystem at the moment of the raise. -/
inductive MkdirsResult where
  | ok (fs : FS)
  | error (msg : String) (fs : FS)
deriving DecidableEq, Repr

/-- Worker for `os.makedirs`: walk the components of the requested path,
creating each missing intermediate directory; raise `FileExistsError` if
the final path already exists, or if any component exists as a non-directory. -/
def mkdirsGo (fs : FS) (acc : Path) : Path → MkdirsResult
  | [] => MkdirsResult.ok fs
  | c :: rest =>
    match lookupFS fs (acc ++ [c]), rest with
    | none, [] => MkdirsResult.ok ((acc ++ [c], NodeKind.dir) :: fs)
    | none, c' :: rest' =>
        mkdirsGo ((acc ++ [c], NodeKind.dir) :: fs) (acc ++ [c]) (c' :: rest')
    | some NodeKind.dir, [] => MkdirsResult.error ("FileExistsError") fs
    | some NodeKind.dir, c' :: rest' => mkdirsGo fs (acc ++ [c]) (c' :: rest')
    | some _, _ => MkdirsResult.error ("FileExistsError") fs

/-- `os.makedirs(p)` with default `exist_ok=False`. -/
def makedirs (fs : FS) (p : Path) : MkdirsResult :=
  mkdirsGo fs [] p

/-- Outcome of `FV3Forecast.create_directory_structure`: a raised
`ValueError`, a `sys.exit` (process termination, distinct from any raised
and catchable error), a raised `OSError` from `os.makedirs`, or normal
return.  Each constructor carries the filesystem as the call leaves it. -/
inductive CDSResult where
  | valueError (msg : String) (fs : FS)
  | systemExit (code : Nat) (fs : FS)
  | osError (msg : String) (fs : FS)
  | ok (fs : FS)
deriving DecidableEq, Repr

/-- `FV3Forecast.create_directory_structure` (forecast.py lines 54-86):
validate the conflict policy, exit fatally on `quit` with an existing run
directory, otherwise resolve the conflict via `handle_existing` and create
the `INPUT` and `RESTART` subdirectories. -/
def create_directory_structure (run_directory : Path) (exist_act : String)
    (suffix : String) (fs : FS) : CDSResult :=
  if ¬ (exist_act ∈ (["delete", "rename", "quit"] : List String)) then
    CDSResult.valueError ("Bad argument: " ++ exist_act) fs
  else if exist_act = "quit" ∧ isdir fs run_directory = true then
    CDSResult.systemExit 1 fs
  else
    let fs1 := handle_existing fs run_directory exist_act suffix
    match makedirs fs1 (run_directory ++ ["INPUT"]) with
    | MkdirsResult.error m fs2 => CDSResult.osError m fs2
    | MkdirsResult.ok fs2 =>
      match makedirs fs2 (run_directory ++ ["RESTART"]) with
      | MkdirsResult.error m fs3 => CDSResult.osError m fs3
      | MkdirsResult.ok fs3 => CDSResult.ok fs3

/-! ### FV3Forecast configuration and run -/

/-- The lateral-boundary-conditions block of the experiment configuration
(`preprocessing.lateral_boundary_conditions`).  The output file template is
a format string applied to a tile and a boundary hour; it is kept abstract
as a function. -/
structure LBCSConfig where
  offset : Int
  interval_hours : Nat
  output_file_template : Nat → Nat → String

/-- The parts of the `forecast` configuration block that `FV3Forecast.run`,
`batch_script` and `_mpi_env_variables` read.  File-staging maps are
association lists from link name to source path; `mpi_args` and `threads`
model `runtime_info.get` with their respective absent cases. -/
structure FV3Config where
  run_dir : Path
  static : List (String × String)
  cycle_dependent : List (String × String)
  mpi_args : Option (List String)
  threads : Option Int
  tiles : List Nat
  lbcs : LBCSConfig
  length : Nat

/-- Python `range(start, stop, step)` for a positive step (a zero step
raises in Python and is never used by this code). -/
def pyRange (start stop step : Nat) : List Nat :=
  if step = 0 then []
  else List.range' start ((stop - start + step - 1) / step) step

/-- `FV3Forecast._boundary_hours`: offset, interval and exclusive end hour. -/
def boundary_hours (lbcs : LBCSConfig) (length : Nat) : Nat × Nat × Nat :=
  let offset := lbcs.offset.natAbs
  (offset, lbcs.interval_hours, length + offset + 1)

/-- `FV3Forecast._define_boundary_files`: map each boundary-condition link
name to the templated source path, for every tile and boundary hour. -/
def define_boundary_files (c : FV3Config) : List (String × String) :=
  let (offset, interval, endhour) := boundary_hours c.lbcs c.length
  c.tiles.flatMap (fun tile =>
    (pyRange offset endhour interval).map (fun bh =>
      ("gfs_bndy.tile" ++ toString tile ++ "." ++ toString (bh - offset) ++ ".nc",
        c.lbcs.output_file_template tile bh)))

/-- Python `dict.update`: existing keys keep their position but take the
new value; genuinely new keys are appended in order. -/
def dictUpdate (d extra : List (String × String)) : List (String × String) :=
  d.map (fun kv =>
    match extra.find? (fun nv => nv.1 == kv.1) with
    | some nv => nv
    | none => kv)
  ++ extra.filter (fun nv => !(d.any (fun kv => kv.1 == nv.1)))

/-- Modelled from the spec: `Driver.stage_files` is called by
`forecast.py` but defined in the driver base class, whose implementation is
not part of this repository.  Per spec sections 4.2 and 8, staging with
`link_files=True` makes each configured name under the run directory a link
resolving to its source path. -/
def stage_files (fs : FS) (run_directory : Path) (files : List (String × String)) : FS :=
  files.foldl (fun acc kv => (run_directory ++ [kv.1], NodeKind.link kv.2) :: acc) fs

/-- `FV3Forecast._mpi_env_variables` (forecast.py lines 237-248): the
environment-export string, pairs joined by the delimiter.  Both
`OMP_NUM_THREADS` and `OMP_STACKSIZE` read the `runtime_info` key
`threads`, with defaults `1` and `"512m"`. -/
def mpi_env_variables (threads : Option Int) (delimiter : String) : String :=
  let envvars : List (String × String) :=
    [ ("KMP_AFFINITY", "scatter"),
      ("OMP_NUM_THREADS", toString (threads.getD 1)),
      ("OMP_STACKSIZE", match threads with
        | some t => toString t
        | none => "512m"),
      ("MPI_TYPE_DEPTH", "20"),
      ("ESMF_RUNTIME_COMPLIANCECHECK", "OFF:depth=4") ]
  String.intercalate delimiter (envvars.map (fun kv => kv.1 ++ "=" ++ kv.2))

/-- `FV3Forecast.batch_script` (forecast.py lines 43-52): the scheduler's
directive chunks, then the environment-export block, then the run command.
`runCmd` stands for the inherited `run_cmd` (not part of this repository);
`schedDirectives` for the scheduler client's `batch_script` contents. -/
def FV3batch_script (c : FV3Config) (runCmd : List String → String)
    (schedDirectives : List String) : List String :=
  let pre_run := mpi_env_variables c.threads ("\n")
  let run_time_args := c.mpi_args.getD []
  schedDirectives ++ [pre_run, runCmd run_time_args]

/-- `subprocess.run` as used here: with `check=True` a non-zero exit status
raises `CalledProcessError`; with `check=False` the exit status is returned
as data in the `CompletedProcess`. -/
def subprocess_run (_cmd : String) (check : Bool) (exitStatus : Int) : Except Int Int :=
  if check = true ∧ exitStatus ≠ 0 then Except.error exitStatus else Except.ok exitStatus

/-- Observable non-filesystem effects of `FV3Forecast.run`: log lines, a
batch-script submission, or a spawned subprocess command. -/
inductive Effect where
  | log (msg : String)
  | submit (script : Path)
  | spawn (cmd : String)
deriving DecidableEq, Repr

/-- How `FV3Forecast.run` returns to its caller: a raised exception, a
`sys.exit`, or a normal return (the Python method returns `None`). -/
inductive RunOutcome where
  | raised (msg : String)
  | exited (code : Nat)
  | done
deriving DecidableEq, Repr

/-- Everything observable about one call to `FV3Forecast.run`: how it
returned, the final filesystem, and the ordered effect trace. -/
structure RunResult where
  outcome : RunOutcome
  fs : FS
  trace : List Effect
deriving DecidableEq, Repr

/-- The `logging.info` line emitted just before the direct-mode dry-run
check (`CRH: RTA = ...`); its text mentions the mpi args. -/
def crhLog (c : FV3Config) : String :=
  "CRH: RTA = " ++ String.intercalate (" ") (c.mpi_args.getD [])

/-- `FV3Forecast.run` (forecast.py lines 146-188).  The run directory is
provisioned with the `delete` policy and static plus cycle-dependent files
(with boundary files merged in) are staged BEFORE any dry-run check.  In
batch mode the script is logged (dry run) or written and submitted; in
direct mode the command is logged (dry run) or spawned with `check=False`,
its exit status discarded.  `runCmd` and `schedDirectives` stand for the
inherited `run_cmd` and the scheduler client (not in this repository);
`subprocExit` is the exit status the spawned process would return;
`suffix` is the rename-policy timestamp suffix (unused under `delete`). -/
def FV3run (c : FV3Config) (dry_run : Bool) (batch_script_name : Option String)
    (runCmd : List String → String) (schedDirectives : List String)
    (subprocExit : Int) (suffix : String) (fs : FS) : RunResult :=
  let rd := c.run_dir
  match create_directory_structure rd ("delete") suffix fs with
  | CDSResult.valueError m fs' => ⟨RunOutcome.raised m, fs', []⟩
  | CDSResult.systemExit code fs' => ⟨RunOutcome.exited code, fs', []⟩
  | CDSResult.osError m fs' => ⟨RunOutcome.raised m, fs', []⟩
  | CDSResult.ok fs1 =>
    let cycle_dep := dictUpdate c.cycle_dependent (define_boundary_files c)
    let fs2 := stage_files fs1 rd c.static
    let fs3 := stage_files fs2 rd cycle_dep
    let run_time_args := c.mpi_args.getD []
    match batch_script_name with
    | some name =>
      let bs := FV3batch_script c runCmd schedDirectives
      if dry_run then
        ⟨RunOutcome.done, fs3,
          [Effect.log ("Batch Script:"), Effect.log (String.intercalate ("\n") bs)]⟩
      else
        let outpath := rd ++ [name]
        let fs4 := (outpath, NodeKind.file) :: fs3
        ⟨RunOutcome.done, fs4, [Effect.submit outpath]⟩
    | none =>
      if dry_run then
        ⟨RunOutcome.done, fs3,
          [Effect.log (crhLog c), Effect.log ("Would run: "),
            Effect.log (runCmd run_time_args)]⟩
      else
        match subprocess_run (runCmd run_time_args) false subprocExit with
        | Except.error e =>
          ⟨RunOutcome.raised ("CalledProcessError: " ++ toString e), fs3,
            [Effect.log (crhLog c), Effect.spawn (runCmd run_time_args)]⟩
        | Except.ok _ =>
          ⟨RunOutcome.done, fs3,
            [Effect.log (crhLog c), Effect.spawn (runCmd run_time_args)]⟩

/-- Recognise a pure log effect. -/
def effIsLog : Effect → Bool
  | Effect.log _ => true
  | _ => false

/-! ### Orog driver -/

/-- Split a character list on `/` separators. -/
def splitOnSlash : List Char → List (List Char)
  | [] => [[]]
  | c :: cs =>
    let rest := splitOnSlash cs
    if c = '/' then [] :: rest
    else
      match rest with
      | [] => [[c]]
      | g :: gs => (c :: g) :: gs

/-- Join component character lists with `/` separators. -/
def joinSlash : List (List Char) → List Char
  | [] => []
  | [g] => g
  | g :: gs => g ++ '/' :: joinSlash gs

/-- Render a path string the way `str(pathlib.Path(s))` does on POSIX:
spurious slashes and single-dot components are collapsed, a bare `//` root
is kept, and the empty path renders as `.`. -/
def pathStr (s : String) : String :=
  let cs := s.data
  let isAbs :=
    match cs with
    | '/' :: _ => true
    | _ => false
  let isDoubleRoot :=
    match cs with
    | '/' :: '/' :: '/' :: _ => false
    | '/' :: '/' :: _ => true
    | _ => false
  let comps := (splitOnSlash cs).filter (fun g => !(g.isEmpty) && !(g == ['.']))
  let root : List Char :=
    if isDoubleRoot then ['/', '/'] else if isAbs then ['/'] else []
  if comps.isEmpty then (if root.isEmpty then "." else String.mk root)
  else String.mk (root ++ joinSlash comps)

/-- An iotaa asset: a path together with its readiness predicate, which
queries the ambient filesystem through an `is_file` oracle. -/
structure Asset where
  ref : String
  is_ready : (String → Bool) → Bool

/-- The nine ordered numeric fields of the orog `old_line1_items` block. -/
structure OrogLine1 where
  mtnres : Int
  lonb : Int
  latb : Int
  jcap : Int
  nr : Int
  nf1 : Int
  nf2 : Int
  efac : Int
  blat : Int
deriving DecidableEq, Repr

/-- The parts of the orog driver configuration read by `grid_file` and
`input_config_file`.  `Option` fields model `config.get` misses. -/
structure OrogConfig where
  old_line1_items : Option OrogLine1
  grid_file : String
  orog_file : Option String
  mask : Option String
  merge : Option String

/-- `Orog.grid_file` (orog.py lines 45-52): yield no asset when the
configured grid file path renders as the string `none`, otherwise an asset
whose readiness is whether that path is an existing regular file. -/
def Orog_grid_file (c : OrogConfig) : Option Asset :=
  let grid_file := pathStr c.grid_file
  if grid_file != "none" then
    some { ref := grid_file, is_ready := fun is_file => is_file grid_file }
  else none

/-- `Orog.input_config_file` rendering (orog.py lines 54-83): the optional
space-joined first line from `old_line1_items`, then the grid file, the
optional orog file, the mask flag and the merge file, joined by newlines,
entries that are `None` dropped. -/
def input_config_file_content (c : OrogConfig) : String :=
  let inputs : Option String :=
    match c.old_line1_items with
    | some items =>
        some (String.intercalate (" ")
          [ toString items.mtnres, toString items.lonb, toString items.latb,
            toString items.jcap, toString items.nr, toString items.nf1,
            toString items.nf2, toString items.efac, toString items.blat ])
    | none => none
  let outgrid := c.grid_file
  let orogfile := c.orog_file
  let mask_only := c.mask.getD (".false.")
  let merge_file := c.merge.getD ("none")
  let content :=
    [inputs, some outgrid, orogfile, some mask_only, some merge_file].filterMap (fun x => x)
  String.intercalate ("\n") content

/-! ### chgres_cube API execute -/

/-- What `getattr(obj, name)` can find on the driver object: a callable
task method, or an attribute that is not callable. -/
inductive PyAttr where
  | callable (act : Unit → Except String (List String))
  | nonCallable

/-- How `execute` returns: the `AttributeError` from a name naming no
attribute, the `TypeError` from calling a non-callable attribute, an
exception propagated out of the task itself, or a normal return carrying
the `True` result. -/
inductive ExecOutcome where
  | attributeError (name : String)
  | typeError (name : String)
  | taskError (msg : String)
  | ok (result : Bool)
deriving DecidableEq, Repr

/-- Everything observable about one `execute` call: how it returned, the
side effects the dispatched task performed, and the graph file written. -/
structure ExecResult where
  outcome : ExecOutcome
  taskEffects : List String
  graphWritten : Option String
deriving DecidableEq, Repr

/-- `uwtools.api.chgres_cube.execute` (chgres_cube.py lines 14-41):
construct the driver, dispatch `getattr(obj, task)()`, optionally write the
Graphviz DOT graph, and return `True`.  The driver's attribute table is a
parameter since `ChgresCube` itself is not part of this repository; task
side effects are the opaque strings a task action reports. -/
def execute (attrs : String → Option PyAttr) (task : String)
    (graph_file : Option String) : ExecResult :=
  match attrs task with
  | none => ⟨ExecOutcome.attributeError task, [], none⟩
  | some PyAttr.nonCallable => ⟨ExecOutcome.typeError task, [], none⟩
  | some (PyAttr.callable act) =>
    match act () with
    | Except.error m => ⟨ExecOutcome.taskError m, [], none⟩
    | Except.ok effs =>
      match graph_file with
      | some gp => ⟨ExecOutcome.ok true, effs, some gp⟩
      | none => ⟨ExecOutcome.ok true, effs, none⟩

/-! ### Helper lemmas -/

theorem go_append (x y s : String) (l : List String) :
    String.intercalate.go (x ++ y) s l = x ++ String.intercalate.go y s l := by
  induction l generalizing y with
  | nil => simp [String.intercalate.go]
  | cons a as ih =>
      simp only [String.intercalate.go]
      rw [String.append_assoc x y s, String.append_assoc x (y ++ s) a, ih]

theorem intercalate_cons_of_ne_nil (s a : String) (l : List String) (h : l ≠ []) :
    String.intercalate s (a :: l) = a ++ s ++ String.intercalate s l := by
  cases l with
  | nil => exact absurd rfl h
  | cons b t =>
      show String.intercalate.go a s (b :: t) = a ++ s ++ String.intercalate.go b s t
      simp only [String.intercalate.go]
      rw [show a ++ s ++ b = (a ++ s) ++ b from rfl, go_append, String.append_assoc]

theorem pfx_iff (p q : Path) : pfx p q = true ↔ ∃ r, q = p ++ r := by
  induction p generalizing q with
  | nil => simp [pfx]
  | cons a as ih =>
      cases q with
      | nil => simp [pfx]
      | cons b bs =>
          simp only [pfx]
          by_cases hab : a = b
          · subst hab
            rw [if_pos rfl, ih]
            constructor
            · rintro ⟨r, hr⟩
              exact ⟨r, by simp [hr]⟩
            · rintro ⟨r, hr⟩
              simp only [List.cons_append, List.cons.injEq] at hr
              exact ⟨r, hr.2⟩
          · rw [if_neg hab]
            constructor
            · intro h
              exact absurd h (by simp)
            · rintro ⟨r, hr⟩
              simp only [List.cons_append, List.cons.injEq] at hr
              exact absurd hr.1.symm hab

theorem pfx_refl (p : Path) : pfx p p = true := by
  rw [pfx_iff]
  exact ⟨[], by simp⟩

theorem pfx_append (p r : Path) : pfx p (p ++ r) = true := by
  rw [pfx_iff]
  exact ⟨r, rfl⟩

/-- A path that extends `rd` and is itself a prefix of `rd ++ [x]` is
either `rd` or `rd ++ [x]`. -/
theorem pfx_sandwich (rd q : Path) (x : String)
    (h1 : pfx rd q = true) (h2 : pfx q (rd ++ [x]) = true) :
    q = rd ∨ q = rd ++ [x] := by
  rw [pfx_iff] at h1 h2
  obtain ⟨r, hr⟩ := h1
  obtain ⟨s, hs⟩ := h2
  subst hr
  rw [List.append_assoc] at hs
  have hrs : r ++ s = [x] := List.append_cancel_left hs.symm
  cases r with
  | nil => exact Or.inl (by simp)
  | cons a r' =>
      simp only [List.cons_append, List.cons.injEq] at hrs
      obtain ⟨hax, hr's⟩ := hrs
      have hr' : r' = [] := by
        cases r' with
        | nil => rfl
        | cons b r'' => simp at hr's
      subst hax hr'
      exact Or.inr rfl

theorem lookup_deltree (fs : FS) (p q : Path) :
    lookupFS (deltree fs p) q = if pfx p q then none else lookupFS fs q := by
  induction fs with
  | nil => simp [deltree, lookupFS]
  | cons e rest ih =>
      obtain ⟨q₀, k₀⟩ := e
      simp only [deltree, List.filter_cons] at ih ⊢
      cases hkeep : pfx p q₀ with
      | true =>
          simp only [hkeep, Bool.not_true, Bool.false_eq_true, if_neg (by simp : ¬ False)]
          rw [ih]
          by_cases hq : q₀ = q
          · subst hq
            rw [if_pos hkeep, if_pos hkeep]
          · simp only [lookupFS, if_neg hq]
      | false =>
          simp only [hkeep, Bool.not_false, if_pos trivial]
          by_cases hq : q₀ = q
          · subst hq
            simp [lookupFS, hkeep]
          · simp only [lookupFS, if_neg hq]
            exact ih

/-- Node lookup after a successful `mkdirsGo`: every path either keeps its
old binding, or is one of the newly created directories, i.e. a strict
extension of `acc` that is a prefix of the full requested path. -/
theorem mkdirsGo_ok_lookup (l : List String) (fs fs' : FS) (acc : Path)
    (h : mkdirsGo fs acc l = MkdirsResult.ok fs') (q : Path) :
    lookupFS fs' q = lookupFS fs q ∨
      (lookupFS fs' q = some NodeKind.dir ∧
        ∃ r, r ≠ [] ∧ pfx r l = true ∧ q = acc ++ r) := by
  induction l generalizing fs acc with
  | nil =>
      simp only [mkdirsGo, MkdirsResult.ok.injEq] at h
      subst h
      exact Or.inl rfl
  | cons c rest ih =>
      cases rest with
      | nil =>
          cases hl : lookupFS fs (acc ++ [c]) with
          | none =>
              simp only [mkdirsGo, hl, MkdirsResult.ok.injEq] at h
              subst h
              by_cases hqe : acc ++ [c] = q
              · refine Or.inr ⟨?_, [c], by simp, by simp [pfx], hqe.symm⟩
                simp [lookupFS, hqe]
              · left
                simp [lookupFS, if_neg hqe]
          | some k =>
              cases k with
              | dir => simp [mkdirsGo, hl] at h
              | file => simp [mkdirsGo, hl] at h
              | link t => simp [mkdirsGo, hl] at h
      | cons c' rest' =>
          cases hl : lookupFS fs (acc ++ [c]) with
          | none =>
              simp only [mkdirsGo, hl] at h
              rcases ih _ _ h with h1 | ⟨hdir, r, hr, hpfx, hq⟩
              · by_cases hqe : acc ++ [c] = q
                · refine Or.inr ⟨?_, [c], by simp, by simp [pfx], hqe.symm⟩
                  rw [h1]
                  simp [lookupFS, hqe]
                · left
                  rw [h1]
                  simp [lookupFS, if_neg hqe]
              · refine Or.inr ⟨hdir, c :: r, by simp, ?_, by simp [hq]⟩
                simp [pfx, hpfx]
          | some k =>
              cases k with
              | dir =>
                  simp only [mkdirsGo, hl] at h
                  rcases ih _ _ h with h1 | ⟨hdir, r, hr, hpfx, hq⟩
                  · exact Or.inl h1
                  · refine Or.inr ⟨hdir, c :: r, by simp, ?_, by simp [hq]⟩
                    simp [pfx, hpfx]
              | file => simp [mkdirsGo, hl] at h
              | link t => simp [mkdirsGo, hl] at h

/-- After a successful `mkdirsGo` the full requested path is a directory. -/
theorem mkdirsGo_ok_target (l : List String) (fs fs' : FS) (acc : Path) (c : String)
    (h : mkdirsGo fs acc (c :: l) = MkdirsResult.ok fs') :
    lookupFS fs' (acc ++ c :: l) = some NodeKind.dir := by
  induction l generalizing fs acc c with
  | nil =>
      cases hl : lookupFS fs (acc ++ [c]) with
      | none =>
          simp only [mkdirsGo, hl, MkdirsResult.ok.injEq] at h
          subst h
          simp [lookupFS]
      | some k =>
          cases k with
          | dir => simp [mkdirsGo, hl] at h
          | file => simp [mkdirsGo, hl] at h
          | link t => simp [mkdirsGo, hl] at h
  | cons c' rest ih =>
      cases hl : lookupFS fs (acc ++ [c]) with
      | none =>
          simp only [mkdirsGo, hl] at h
          have := ih ((acc ++ [c], NodeKind.dir) :: fs) (acc ++ [c]) c' h
          rw [List.append_assoc] at this
          simpa using this
      | some k =>
          cases k with
          | dir =>
              simp only [mkdirsGo, hl] at h
              have := ih fs (acc ++ [c]) c' h
              rw [List.append_assoc] at this
              simpa using this
          | file => simp [mkdirsGo, hl] at h
          | link t => simp [mkdirsGo, hl] at h

/-! ### Claim theorems -/

/-- Claim C3: for every conflict-policy value outside the set delete,
rename, quit, and every run-directory path, `create_directory_structure`
raises the usage `ValueError` as its very first step, leaving the
filesystem unchanged. -/
theorem invalid_policy_usage_error (fs : FS) (rd : Path) (sfx pol : String)
    (h : pol ∉ (["delete", "rename", "quit"] : List String)) :
    create_directory_structure rd pol sfx fs
      = CDSResult.valueError ("Bad argument: " ++ pol) fs := by
  unfold create_directory_structure
  rw [if_pos h]

/-- Witness for C3 at the policy value `frobnicate`. -/
theorem invalid_policy_usage_error_witness :
    ("frobnicate" : String) ∉ (["delete", "rename", "quit"] : List String)
    ∧ create_directory_structure ["run"] ("frobnicate") ("_ts") [(["run"], NodeKind.dir)]
      = CDSResult.valueError ("Bad argument: " ++ "frobnicate") [(["run"], NodeKind.dir)] :=
  ⟨by decide,
    invalid_policy_usage_error [(["run"], NodeKind.dir)] ["run"] ("_ts") ("frobnicate")
      (by decide)⟩

/-- Claim C4: for every pre-existing run directory, the `quit` policy
leaves the filesystem untouched and terminates the whole process via
`sys.exit(1)`: a fatal termination outcome, distinct from every raised
(catchable) error constructor. -/
theorem quit_policy_fatal_exit (fs : FS) (rd : Path) (sfx : String)
    (h : isdir fs rd = true) :
    create_directory_structure rd ("quit") sfx fs = CDSResult.systemExit 1 fs := by
  unfold create_directory_structure
  rw [if_neg (by simp), if_pos ⟨rfl, h⟩]

/-- Witness for C4 at an existing run directory. -/
theorem quit_policy_fatal_exit_witness :
    isdir [(["run"], NodeKind.dir), (["run", "f"], NodeKind.file)] ["run"] = true
    ∧ create_directory_structure ["run"] ("quit") ("_ts")
        [(["run"], NodeKind.dir), (["run", "f"], NodeKind.file)]
      = CDSResult.systemExit 1 [(["run"], NodeKind.dir), (["run", "f"], NodeKind.file)] :=
  ⟨by decide,
    quit_policy_fatal_exit [(["run"], NodeKind.dir), (["run", "f"], NodeKind.file)] ["run"]
      ("_ts") (by decide)⟩

/-- Claim C9: the MPI environment-export string is exactly the five pairs
`KMP_AFFINITY=scatter`, `OMP_NUM_THREADS`, `OMP_STACKSIZE`,
`MPI_TYPE_DEPTH=20`, `ESMF_RUNTIME_COMPLIANCECHECK=OFF:depth=4`, joined by
the delimiter in that fixed order, where both `OMP_NUM_THREADS` and
`OMP_STACKSIZE` take their value from the `runtime_info` key `threads`,
with defaults `1` and `512m` when it is absent. -/
theorem mpi_env_variables_fixed_order (threads : Option Int) (d : String) :
    mpi_env_variables threads d =
      String.intercalate d
        [ "KMP_AFFINITY=scatter",
          "OMP_NUM_THREADS=" ++ toString (threads.getD 1),
          "OMP_STACKSIZE=" ++ (match threads with
            | some t => toString t
            | none => "512m"),
          "MPI_TYPE_DEPTH=20",
          "ESMF_RUNTIME_COMPLIANCECHECK=OFF:depth=4" ] := by
  cases threads <;> rfl

/-- Claim C8: a task-name string that names no callable task method on the
driver makes `execute` fail immediately (an `AttributeError` from
`getattr`, or a `TypeError` from calling a non-callable attribute), with no
task side effect performed and no silent success; a known task name whose
action completes without raising makes `execute` return `True`. -/
theorem execute_task_dispatch (attrs : String → Option PyAttr) (task : String)
    (gf : Option String) :
    (attrs task = none →
      execute attrs task gf = ⟨ExecOutcome.attributeError task, [], none⟩)
    ∧ (attrs task = some PyAttr.nonCallable →
      execute attrs task gf = ⟨ExecOutcome.typeError task, [], none⟩)
    ∧ (∀ act effs, attrs task = some (PyAttr.callable act) → act () = Except.ok effs →
      (execute attrs task gf).outcome = ExecOutcome.ok true) := by
  refine ⟨?_, ?_, ?_⟩
  · intro h
    unfold execute
    rw [h]
  · intro h
    unfold execute
    rw [h]
  · intro act effs h1 h2
    simp only [execute, h1, h2]
    cases gf <;> rfl

/-- Witness for C8: an unknown name errors with nothing done, a
non-callable attribute errors, and a completing task yields `True`. -/
theorem execute_task_dispatch_witness :
    execute (fun _ => none) ("bogus") none
      = ⟨ExecOutcome.attributeError ("bogus"), [], none⟩
    ∧ execute (fun _ => some PyAttr.nonCallable) ("config") none
      = ⟨ExecOutcome.typeError ("config"), [], none⟩
    ∧ (execute (fun _ => some (PyAttr.callable (fun _ => Except.ok ["staged"]))) ("run")
        none).outcome = ExecOutcome.ok true :=
  ⟨(execute_task_dispatch (fun _ => none) ("bogus") none).1 rfl,
    (execute_task_dispatch (fun _ => some PyAttr.nonCallable) ("config") none).2.1 rfl,
    (execute_task_dispatch (fun _ => some (PyAttr.callable (fun _ => Except.ok ["staged"])))
      ("run") none).2.2 (fun _ => Except.ok ["staged"]) ["staged"] rfl rfl⟩

/-- Claim C10 counterexample: the configured grid-file value `none/` is a
different string from `none`, yet the task yields no asset, because the
code compares `str(Path(value))` and path rendering collapses the trailing
slash. -/
theorem orog_grid_file_counterexample :
    Orog_grid_file { old_line1_items := none, grid_file := "none/", orog_file := none,
                     mask := none, merge := none } = none
    ∧ ("none/" : String) ≠ "none" := by
  exact ⟨rfl, by decide⟩

/-- Claim C10 as amended: the comparison is against the rendered path
string `str(Path(grid_file))`; when that renders as `none` the task yields
no asset, and otherwise it yields an asset over that rendered path whose
readiness is whether the path is an existing regular file. -/
theorem orog_grid_file_normalized (c : OrogConfig) :
    Orog_grid_file c =
      (if pathStr c.grid_file = "none" then none
        else some { ref := pathStr c.grid_file,
                    is_ready := fun is_file => is_file (pathStr c.grid_file) }) := by
  unfold Orog_grid_file
  by_cases h : pathStr c.grid_file = "none"
  · rw [if_pos h]
    simp [h]
  · rw [if_neg h]
    simp [bne_iff_ne, h]

/-- Claim C6: when the nine-field `old_line1_items` set is present, the
rendered input config file is exactly those nine values, space-joined in
the fixed order mtnres lonb latb jcap nr nf1 nf2 efac blat, followed by a
newline and the rendering of the same configuration without that field
set — so when the set is absent that first line is omitted entirely and
the remaining lines shift up. -/
theorem orog_input_config_first_line (c : OrogConfig) (l : OrogLine1)
    (h : c.old_line1_items = some l) :
    input_config_file_content c =
      String.intercalate (" ")
        [ toString l.mtnres, toString l.lonb, toString l.latb, toString l.jcap,
          toString l.nr, toString l.nf1, toString l.nf2, toString l.efac, toString l.blat ]
      ++ "\n" ++ input_config_file_content { c with old_line1_items := none } := by
  obtain ⟨o1, gf, og, mk, mg⟩ := c
  have h' : o1 = some l := h
  subst h'
  cases og with
  | none =>
      simp only [input_config_file_content, List.filterMap]
      rw [intercalate_cons_of_ne_nil _ _ _ (by simp)]
  | some ogf =>
      simp only [input_config_file_content, List.filterMap]
      rw [intercalate_cons_of_ne_nil _ _ _ (by simp)]

/-- Witness for C6 at a concrete nine-field configuration. -/
theorem orog_input_config_first_line_witness :
    ({ old_line1_items := some ⟨1, 2, 3, 4, 5, 6, 7, 8, 9⟩, grid_file := "grid.nc",
       orog_file := none, mask := none, merge := none } : OrogConfig).old_line1_items
      = some ⟨1, 2, 3, 4, 5, 6, 7, 8, 9⟩
    ∧ input_config_file_content
        { old_line1_items := some ⟨1, 2, 3, 4, 5, 6, 7, 8, 9⟩, grid_file := "grid.nc",
          orog_file := none, mask := none, merge := none } =
      String.intercalate (" ")
        [ toString (1 : Int), toString (2 : Int), toString (3 : Int), toString (4 : Int),
          toString (5 : Int), toString (6 : Int), toString (7 : Int), toString (8 : Int),
          toString (9 : Int) ]
      ++ "\n" ++ input_config_file_content
        { old_line1_items := none, grid_file := "grid.nc",
          orog_file := none, mask := none, merge := none } :=
  ⟨rfl,
    orog_input_config_first_line
      { old_line1_items := some ⟨1, 2, 3, 4, 5, 6, 7, 8, 9⟩, grid_file := "grid.nc",
        orog_file := none, mask := none, merge := none } ⟨1, 2, 3, 4, 5, 6, 7, 8, 9⟩ rfl⟩

/-- Claim C7: for a fixed configuration the run command rendered into the
batch script is the identical string `run_cmd(mpi_args)` that direct mode
spawns as a subprocess and that a direct dry run logs: the batch script's
last appended chunk, the spawned command, and the logged command all
coincide, because both modes resolve the executable and join the arguments
through the same `run_cmd` applied to the same `mpi_args`. -/
theorem fv3_run_command_identical (c : FV3Config) (runCmd : List String → String)
    (sched : List String) (e : Int) (sfx : String) (fs fs1 : FS)
    (h : create_directory_structure c.run_dir ("delete") sfx fs = CDSResult.ok fs1) :
    (FV3batch_script c runCmd sched).getLast? = some (runCmd (c.mpi_args.getD []))
    ∧ (FV3run c false none runCmd sched e sfx fs).trace
        = [Effect.log (crhLog c), Effect.spawn (runCmd (c.mpi_args.getD []))]
    ∧ (FV3run c true none runCmd sched e sfx fs).trace
        = [Effect.log (crhLog c), Effect.log ("Would run: "),
            Effect.log (runCmd (c.mpi_args.getD []))] := by
  refine ⟨?_, ?_, ?_⟩
  · unfold FV3batch_script
    rw [show sched ++ [mpi_env_variables c.threads ("\n"), runCmd (c.mpi_args.getD [])]
          = (sched ++ [mpi_env_variables c.threads ("\n")]) ++ [runCmd (c.mpi_args.getD [])]
        by simp]
    exact List.getLast?_concat _
  · simp [FV3run, h, subprocess_run]
  · simp [FV3run, h]

/-- Witness for C7 at a concrete configuration with an empty filesystem:
the batch script's last chunk and the direct-mode spawned command are both
the same rendered command. -/
theorem fv3_run_command_identical_witness :
    create_directory_structure ["run"] ("delete") ("_w") [] =
      CDSResult.ok [(["run", "RESTART"], NodeKind.dir), (["run", "INPUT"], NodeKind.dir),
        (["run"], NodeKind.dir)]
    ∧ (FV3batch_script
        { run_dir := ["run"], static := [], cycle_dependent := [], mpi_args := none,
          threads := none, tiles := [], lbcs := ⟨0, 1, fun _ _ => ""⟩, length := 0 }
        (fun args => String.intercalate (" ") ("fv3.exe" :: args)) []).getLast?
      = some ((fun args => String.intercalate (" ") ("fv3.exe" :: args)) [])
    ∧ (FV3run
        { run_dir := ["run"], static := [], cycle_dependent := [], mpi_args := none,
          threads := none, tiles := [], lbcs := ⟨0, 1, fun _ _ => ""⟩, length := 0 }
        false none (fun args => String.intercalate (" ") ("fv3.exe" :: args)) [] 0 ("_w")
        []).trace
      = [Effect.log (crhLog
          { run_dir := ["run"], static := [], cycle_dependent := [], mpi_args := none,
            threads := none, tiles := [], lbcs := ⟨0, 1, fun _ _ => ""⟩, length := 0 }),
          Effect.spawn ((fun args => String.intercalate (" ") ("fv3.exe" :: args)) [])] := by
  have hmain := fv3_run_command_identical
    { run_dir := ["run"], static := [], cycle_dependent := [], mpi_args := none,
      threads := none, tiles := [], lbcs := ⟨0, 1, fun _ _ => ""⟩, length := 0 }
    (fun args => String.intercalate (" ") ("fv3.exe" :: args)) [] 0 ("_w") []
    [(["run", "RESTART"], NodeKind.dir), (["run", "INPUT"], NodeKind.dir),
      (["run"], NodeKind.dir)] (by decide)
  exact ⟨by decide, hmain.1, hmain.2.1⟩

/-- Claim C1 counterexample: with `dry_run = true`, invoking `run` on a
populated run directory still changes the filesystem — the pre-existing
file `run/old` is deleted by the unconditional `delete`-policy
provisioning that happens before the dry-run check — refuting "performs no
filesystem or process side effects ... leaving the run directory and all
files unchanged". -/
theorem fv3_dry_run_changes_filesystem :
    lookupFS (FV3run
        { run_dir := ["run"], static := [("a.nc", "src/a.nc")], cycle_dependent := [],
          mpi_args := none, threads := none, tiles := [], lbcs := ⟨0, 1, fun _ _ => ""⟩,
          length := 0 }
        true none (fun args => String.intercalate (" ") ("fv3.exe" :: args)) [] 0 ("_ts")
        [(["run"], NodeKind.dir), (["run", "old"], NodeKind.file)]).fs
      (["run", "old"]) = none
    ∧ lookupFS [(["run"], NodeKind.dir), (["run", "old"], NodeKind.file)] (["run", "old"])
        = some NodeKind.file
    ∧ (FV3run
        { run_dir := ["run"], static := [("a.nc", "src/a.nc")], cycle_dependent := [],
          mpi_args := none, threads := none, tiles := [], lbcs := ⟨0, 1, fun _ _ => ""⟩,
          length := 0 }
        true none (fun args => String.intercalate (" ") ("fv3.exe" :: args)) [] 0 ("_ts")
        [(["run"], NodeKind.dir), (["run", "old"], NodeKind.file)]).fs
      ≠ [(["run"], NodeKind.dir), (["run", "old"], NodeKind.file)] := by
  exact ⟨by decide, by decide, by decide⟩

/-- Claim C1 as amended: with `dry_run = true`, `run` performs no process
side effects — its effect trace consists of log lines only (no subprocess
spawn, no batch submission) — and writes no batch script: batch and direct
dry runs leave the identical filesystem, regardless of the batch-script
name and of whatever the subprocess would have exited with.  Run-directory
provisioning and file staging do still occur. -/
theorem fv3_dry_run_no_process_side_effects (c : FV3Config) (name : String)
    (runCmd : List String → String) (sched : List String) (e1 e2 : Int)
    (sfx : String) (fs : FS) :
    (FV3run c true (some name) runCmd sched e1 sfx fs).trace.all effIsLog = true
    ∧ (FV3run c true none runCmd sched e2 sfx fs).trace.all effIsLog = true
    ∧ (FV3run c true (some name) runCmd sched e1 sfx fs).fs
        = (FV3run c true none runCmd sched e2 sfx fs).fs := by
  cases h : create_directory_structure c.run_dir ("delete") sfx fs <;>
    simp [FV3run, h, effIsLog]

/-- Claim C2 counterexample: in direct (non-batch) mode no function of
`run`'s observable result recovers the subprocess exit status — the result
is identical whether the process exits 0 or 7 — so the exit status is not
"recorded as data on the result that the caller may inspect": `run`
discards the `CompletedProcess` and returns `None`. -/
theorem fv3_exit_status_not_recorded :
    ¬ ∃ f : RunResult → Int, ∀ e : Int,
      f (FV3run
          { run_dir := ["run"], static := [], cycle_dependent := [], mpi_args := none,
            threads := none, tiles := [], lbcs := ⟨0, 1, fun _ _ => ""⟩, length := 0 }
          false none (fun args => String.intercalate (" ") ("fv3.exe" :: args)) [] e
          ("_ts") []) = e := by
  rintro ⟨f, hf⟩
  have h0 := hf 0
  have h7 := hf 7
  have heq : FV3run
      { run_dir := ["run"], static := [], cycle_dependent := [], mpi_args := none,
        threads := none, tiles := [], lbcs := ⟨0, 1, fun _ _ => ""⟩, length := 0 }
      false none (fun args => String.intercalate (" ") ("fv3.exe" :: args)) [] 7 ("_ts") []
      = FV3run
      { run_dir := ["run"], static := [], cycle_dependent := [], mpi_args := none,
        threads := none, tiles := [], lbcs := ⟨0, 1, fun _ _ => ""⟩, length := 0 }
      false none (fun args => String.intercalate (" ") ("fv3.exe" :: args)) [] 0 ("_ts") [] := by
    decide
  rw [heq, h0] at h7
  exact absurd h7 (by decide)

/-- Claim C2 as amended: in direct mode the subprocess is spawned with
`check=False`, so its exit status never influences `run`'s result at all —
the whole observable result equals the result for exit status 0 — and in
particular a non-zero exit is never propagated as a raised exception:
whenever the trace shows the subprocess was spawned, `run` returned
normally.  The exit status is, however, not recorded on the result. -/
theorem fv3_direct_exit_status_invisible (c : FV3Config)
    (runCmd : List String → String) (sched : List String) (e : Int) (sfx : String)
    (fs : FS) :
    FV3run c false none runCmd sched e sfx fs = FV3run c false none runCmd sched 0 sfx fs
    ∧ ((FV3run c false none runCmd sched e sfx fs).trace.any (fun eff =>
          match eff with
          | Effect.spawn _ => true
          | _ => false) = true →
        (FV3run c false none runCmd sched e sfx fs).outcome = RunOutcome.done) := by
  cases h : create_directory_structure c.run_dir ("delete") sfx fs <;>
    simp [FV3run, h, subprocess_run]

/-- Witness for C2's amended theorem at a concrete run that does spawn. -/
theorem fv3_direct_exit_status_invisible_witness :
    (FV3run
        { run_dir := ["run"], static := [], cycle_dependent := [], mpi_args := none,
          threads := none, tiles := [], lbcs := ⟨0, 1, fun _ _ => ""⟩, length := 0 }
        false none (fun args => String.intercalate (" ") ("fv3.exe" :: args)) [] 7 ("_ts")
        []).trace.any (fun eff =>
          match eff with
          | Effect.spawn _ => true
          | _ => false) = true
    ∧ (FV3run
        { run_dir := ["run"], static := [], cycle_dependent := [], mpi_args := none,
          threads := none, tiles := [], lbcs := ⟨0, 1, fun _ _ => ""⟩, length := 0 }
        false none (fun args => String.intercalate (" ") ("fv3.exe" :: args)) [] 7 ("_ts")
        []).outcome = RunOutcome.done :=
  ⟨by decide,
    (fv3_direct_exit_status_invisible
      { run_dir := ["run"], static := [], cycle_dependent := [], mpi_args := none,
        threads := none, tiles := [], lbcs := ⟨0, 1, fun _ _ => ""⟩, length := 0 }
      (fun args => String.intercalate (" ") ("fv3.exe" :: args)) [] 7 ("_ts") []).2
      (by decide)⟩

/-- `makedirs` wrapper of `mkdirsGo_ok_lookup`: after a successful
`makedirs fs p`, every path keeps its old binding or is a nonempty prefix
of `p` newly bound to a directory. -/
theorem makedirs_ok_lookup (fs fs' : FS) (p : Path)
    (h : makedirs fs p = MkdirsResult.ok fs') (q : Path) :
    lookupFS fs' q = lookupFS fs q ∨
      (lookupFS fs' q = some NodeKind.dir ∧ q ≠ [] ∧ pfx q p = true) := by
  rcases mkdirsGo_ok_lookup p fs fs' [] h q with h1 | ⟨hdir, r, hr, hpfx, hq⟩
  · exact Or.inl h1
  · have hqr : q = r := by simpa using hq
    exact Or.inr ⟨hdir, by rw [hqr]; exact hr, by rw [hqr]; exact hpfx⟩

/-- `makedirs` wrapper of `mkdirsGo_ok_target`: after a successful
`makedirs fs p` the requested path is a directory. -/
theorem makedirs_ok_target (fs fs' : FS) (p : Path) (hp : p ≠ [])
    (h : makedirs fs p = MkdirsResult.ok fs') :
    lookupFS fs' p = some NodeKind.dir := by
  cases p with
  | nil => exact absurd rfl hp
  | cons c l =>
      have := mkdirsGo_ok_target l fs fs' [] c h
      simpa using this

/-- Claim C5: on an existing (possibly populated) run directory, the
`delete` policy either fails loudly with the raised `OSError` of a
subdirectory creation, or succeeds leaving `INPUT` and `RESTART` as
directories under the run directory and nothing else below it: every prior
content is removed and both subdirectories are otherwise empty. -/
theorem delete_policy_exact_structure (fs : FS) (rd : Path) (sfx : String)
    (hdir : isdir fs rd = true) :
    (∃ m fs2, create_directory_structure rd ("delete") sfx fs = CDSResult.osError m fs2) ∨
    (∃ fs3, create_directory_structure rd ("delete") sfx fs = CDSResult.ok fs3 ∧
      lookupFS fs3 (rd ++ ["INPUT"]) = some NodeKind.dir ∧
      lookupFS fs3 (rd ++ ["RESTART"]) = some NodeKind.dir ∧
      ∀ q, pfx rd q = true → q ≠ rd → q ≠ rd ++ ["INPUT"] → q ≠ rd ++ ["RESTART"] →
        lookupFS fs3 q = none) := by
  have hlook : lookupFS fs rd = some NodeKind.dir := of_decide_eq_true hdir
  have hex : existsFS fs rd = true := by rw [existsFS, hlook]; rfl
  have hfs1 : handle_existing fs rd ("delete") sfx = deltree fs rd := by
    rw [handle_existing, if_pos rfl, if_pos hex]
  cases h2 : makedirs (deltree fs rd) (rd ++ ["INPUT"]) with
  | error m fs2 =>
      refine Or.inl ⟨m, fs2, ?_⟩
      simp [create_directory_structure, hfs1, h2]
  | ok fs2 =>
      cases h3 : makedirs fs2 (rd ++ ["RESTART"]) with
      | error m fs3 =>
          refine Or.inl ⟨m, fs3, ?_⟩
          simp [create_directory_structure, hfs1, h2, h3]
      | ok fs3 =>
          have hcds : create_directory_structure rd ("delete") sfx fs = CDSResult.ok fs3 := by
            simp [create_directory_structure, hfs1, h2, h3]
          refine Or.inr ⟨fs3, hcds, ?_, ?_, ?_⟩
          · have hin : lookupFS fs2 (rd ++ ["INPUT"]) = some NodeKind.dir :=
              makedirs_ok_target (deltree fs rd) fs2 (rd ++ ["INPUT"]) (by simp) h2
            rcases makedirs_ok_lookup fs2 fs3 (rd ++ ["RESTART"]) h3 (rd ++ ["INPUT"]) with
              h4 | ⟨h4, _, _⟩
            · rw [h4, hin]
            · exact h4
          · exact makedirs_ok_target fs2 fs3 (rd ++ ["RESTART"]) (by simp) h3
          · intro q hq hne hni hnr
            rcases makedirs_ok_lookup fs2 fs3 (rd ++ ["RESTART"]) h3 q with
              h4 | ⟨_, _, h4⟩
            · rw [h4]
              rcases makedirs_ok_lookup (deltree fs rd) fs2 (rd ++ ["INPUT"]) h2 q with
                h5 | ⟨_, _, h5⟩
              · rw [h5, lookup_deltree, if_pos hq]
              · rcases pfx_sandwich rd q ("INPUT") hq h5 with h6 | h6
                · exact absurd h6 hne
                · exact absurd h6 hni
            · rcases pfx_sandwich rd q ("RESTART") hq h4 with h6 | h6
              · exact absurd h6 hne
              · exact absurd h6 hnr

/-- Witness for C5 at a populated run directory containing a stale file. -/
theorem delete_policy_exact_structure_witness :
    isdir [(["run"], NodeKind.dir), (["run", "junk"], NodeKind.file)] ["run"] = true
    ∧ ((∃ m fs2, create_directory_structure ["run"] ("delete") ("_ts")
          [(["run"], NodeKind.dir), (["run", "junk"], NodeKind.file)]
          = CDSResult.osError m fs2) ∨
      (∃ fs3, create_directory_structure ["run"] ("delete") ("_ts")
          [(["run"], NodeKind.dir), (["run", "junk"], NodeKind.file)] = CDSResult.ok fs3 ∧
        lookupFS fs3 (["run"] ++ ["INPUT"]) = some NodeKind.dir ∧
        lookupFS fs3 (["run"] ++ ["RESTART"]) = some NodeKind.dir ∧
        ∀ q, pfx ["run"] q = true → q ≠ ["run"] → q ≠ ["run"] ++ ["INPUT"] →
          q ≠ ["run"] ++ ["RESTART"] → lookupFS fs3 q = none)) :=
  ⟨by decide,
    delete_policy_exact_structure
      [(["run"], NodeKind.dir), (["run", "junk"], NodeKind.file)] ["run"] ("_ts")
      (by decide)⟩

end Uwtools
